import Mathlib

/-!
Verification of the DMF platform layer (`Dmf/Framework/DmfPlatform.c`).

The C code implements a handle-based, reference-counted, hierarchically
owned object runtime (the `DMF_WIN32_MODE` branch of `DmfPlatform.c`).
This file gives a shallow embedding of its data model and operations:

* the object-lifecycle engine (`DmfPlatformObjectCreate`, `WdfObjectDelete`)
  is modelled as a tree of objects (the intrusive `ChildList` becomes an
  inductive forest) whose deletion produces an explicit event trace;
* the context-extension store (`WdfObjectAllocateContext`,
  `WdfObjectGetTypedContextWorker`) is modelled over the object's
  `ContextList`, with descriptor identity given by the `ContextName`
  pointer, as in the C comparison;
* the allocation-dependent control flow of the creation functions
  (`WdfMemoryCreate`, `WdfSpinLockCreate`, `WdfCollectionCreate`,
  `WdfCollectionAdd`) is modelled with an explicit allocator state whose
  oracle decides which `DMF_Platform_Allocate` calls succeed;
* the collection operations (`WdfCollectionAdd`, `WdfCollectionGetItem`,
  `WdfCollectionRemoveItem`, `WdfCollectionGetFirstItem`,
  `WdfCollectionGetLastItem`) are modelled over the backing list;
* `WdfMemoryCreatePreallocated` / `WdfMemoryGetBuffer` are modelled with
  the two distinct storage locations the C code actually touches (the
  object header that the cast `(DMF_PLATFORM_MEMORY*)platformObject`
  writes through, and the separately allocated `Data` block that
  `WdfMemoryGetBuffer` reads from).
-/

namespace DmfPlatform

/-! ## Collection backing list (`WDFCOLLECTION`)

`DMF_PLATFORM_COLLECTION` keeps a doubly linked `List` of
`COLLECTION_ENTRY` nodes plus an `ItemCount`.  Every operation keeps
`ItemCount` equal to the number of linked entries, so the model is the
list of stored `WDFOBJECT` handles (handles as `Nat`). -/

/-- `WdfCollectionAdd`: `InsertTailList` of a new entry holding `x`
(plus `ItemCount++`). -/
def wdfCollectionAdd (l : List Nat) (x : Nat) : List Nat :=
  l ++ [x]

/-- `WdfCollectionGetCount`: returns `ItemCount`. -/
def wdfCollectionGetCount (l : List Nat) : Nat :=
  l.length

/-- `WdfCollectionGetItem`: walks from `Flink` counting up to `Index`;
returns `NULL` (here `none`) when the walk reaches the list head again. -/
def wdfCollectionGetItem : List Nat → Nat → Option Nat
  | [], _ => none
  | x :: _, 0 => some x
  | _ :: rest, i + 1 => wdfCollectionGetItem rest i

/-- `WdfCollectionRemoveItem`: walks to `Index` and removes that entry
(plus `ItemCount--`); out-of-range index leaves the list unchanged. -/
def wdfCollectionRemoveItem : List Nat → Nat → List Nat
  | [], _ => []
  | _ :: rest, 0 => rest
  | x :: rest, i + 1 => x :: wdfCollectionRemoveItem rest i

/-- `WdfCollectionRemove`: removes the first entry whose stored handle
equals `Item` (identity comparison); no-op when absent. -/
def wdfCollectionRemove : List Nat → Nat → List Nat
  | [], _ => []
  | x :: rest, y => if x = y then rest else x :: wdfCollectionRemove rest y

/-- `WdfCollectionGetFirstItem`: the entry at `Flink`, or `NULL` when the
list is empty. -/
def wdfCollectionGetFirstItem : List Nat → Option Nat
  | [] => none
  | x :: _ => some x

/-- `WdfCollectionGetLastItem`: the entry at `Blink` (the tail of the
list), or `NULL` when the list is empty. -/
def wdfCollectionGetLastItem (l : List Nat) : Option Nat :=
  l.getLast?

/-! ## Context extension store

`WdfObjectAllocateContext` copies the caller's
`WDF_OBJECT_CONTEXT_TYPE_INFO` into the new `DMF_PLATFORM_CONTEXT` and
`InsertTailList`s it into the object's `ContextList`.
`WdfObjectGetTypedContextWorker` scans from the head and compares the
stored `ContextName` pointer with the query's `ContextName` pointer
(identity, not string contents).  We model the `ContextName` pointer and
the `ContextData` pointer as `Nat`. -/

structure DmfPlatformContext where
  contextName : Nat
  contextSize : Nat
  contextData : Nat
  deriving DecidableEq, Repr

/-- The successful path of `WdfObjectAllocateContext`: the new context
is linked at the tail of the object's `ContextList`. -/
def attachContext (cs : List DmfPlatformContext) (c : DmfPlatformContext) :
    List DmfPlatformContext :=
  cs ++ [c]

/-- `WdfObjectGetTypedContextWorker`: scans the `ContextList` from
`Flink`, returning the `ContextData` of the first entry whose stored
`ContextName` equals the queried `TypeInfo->ContextName`, `NULL` (here
`none`) when no entry matches. -/
def wdfObjectGetTypedContextWorker :
    List DmfPlatformContext → Nat → Option Nat
  | [], _ => none
  | c :: rest, q =>
      if q = c.contextName then some c.contextData
      else wdfObjectGetTypedContextWorker rest q

/-! ## Preallocated memory objects (`WdfMemoryCreatePreallocated`)

`WdfMemoryCreatePreallocated` allocates `platformObject->Data` and then
initializes a `DMF_PLATFORM_MEMORY` reached through the cast
`(DMF_PLATFORM_MEMORY*)platformObject` — the object header itself — not
through `platformObject->Data`.  `WdfMemoryGetBuffer` and
`DmfPlatformWdfMemoryDelete` read through `platformObject->Data`.  The
model therefore keeps both locations; a freshly allocated block has all
fields uninitialized (`none`). -/

structure DmfPlatformMemoryFields where
  dataMemory : Option Nat
  needToDeallocate : Option Bool
  size : Option Nat
  deriving DecidableEq, Repr

/-- A freshly `DMF_Platform_Allocate`d `DMF_PLATFORM_MEMORY` block:
no field has been written yet. -/
def freshMemoryFields : DmfPlatformMemoryFields :=
  { dataMemory := none, needToDeallocate := none, size := none }

structure MemoryObject where
  /-- the `DMF_PLATFORM_MEMORY` view obtained by casting the
  `DMF_PLATFORM_OBJECT` pointer itself. -/
  headerOverlay : DmfPlatformMemoryFields
  /-- the separately allocated block `platformObject->Data` points to. -/
  data : DmfPlatformMemoryFields
  deriving DecidableEq, Repr

/-- `WdfMemoryCreatePreallocated`, field-initialization part: the store
`platformMemory = (DMF_PLATFORM_MEMORY*)platformObject` makes the
subsequent writes of `DataMemory = Buffer`, `NeedToDeallocate = FALSE`
and `Size = BufferSize` land in the object header; the allocated `Data`
block is never written. -/
def wdfMemoryCreatePreallocated (buffer : Nat) (bufferSize : Nat) :
    MemoryObject :=
  { headerOverlay :=
      { dataMemory := some buffer
        needToDeallocate := some false
        size := some bufferSize }
    data := freshMemoryFields }

/-- `WdfMemoryCreate`, field-initialization part (for contrast): here
`platformMemory = (DMF_PLATFORM_MEMORY*)platformObject->Data`, so the
writes of `DataMemory`, `NeedToDeallocate = TRUE` and `Size` land in the
`Data` block. -/
def wdfMemoryCreateFields (allocatedBuffer : Nat) (bufferSize : Nat) :
    MemoryObject :=
  { headerOverlay := freshMemoryFields
    data :=
      { dataMemory := some allocatedBuffer
        needToDeallocate := some true
        size := some bufferSize } }

/-- `WdfMemoryGetBuffer`: reads `platformMemory->Size` into
`*BufferSize` and returns `platformMemory->DataMemory`, where
`platformMemory = platformObject->Data`. -/
def wdfMemoryGetBuffer (m : MemoryObject) : Option Nat × Option Nat :=
  (m.data.dataMemory, m.data.size)

/-- `DmfPlatformWdfMemoryDelete`: frees `platformMemory->DataMemory`
exactly when `platformMemory->NeedToDeallocate`, reading both through
`platformObject->Data`.  Returns the flag it branches on. -/
def dmfPlatformWdfMemoryDelete (m : MemoryObject) : Option Bool :=
  m.data.needToDeallocate

/-! ## Object lifecycle (`DMF_PLATFORM_OBJECT`, `WdfObjectDelete`)

A `DMF_PLATFORM_OBJECT` carries a reference count, the copied
`WDF_OBJECT_ATTRIBUTES` (parent pointer, cleanup callback, destroy
callback), an `ObjectDelete` payload destructor, the `ContextList`, a
`NumberOfChildren` counter and the intrusive `ChildList`.  Because the
ownership relation is a tree, the heap of objects reachable from one
root is embedded as a mutually inductive tree: `PObj` is one object,
`PForest` its `ChildList`.

Deletion is observed through an explicit event trace recording which
callbacks fire and which blocks are passed to `DMF_Platform_Free`, in
program order. -/

structure ObjData where
  /-- identity of the control block (its address). -/
  id : Nat
  /-- `ReferenceCount` (a signed `LONG`). -/
  referenceCount : Int
  /-- `ObjectAttributes.EvtCleanupCallback != NULL`. -/
  cleanup : Bool
  /-- `ObjectAttributes.EvtDestroyCallback != NULL`. -/
  destroy : Bool
  /-- `ObjectAttributes.ParentObject != NULL`. -/
  hasParent : Bool
  /-- `ObjectDelete != NULL` (type-specific payload destructor). -/
  objectDelete : Bool
  /-- addresses of the `ContextData` blocks linked in `ContextList`. -/
  contexts : List Nat
  /-- `NumberOfChildren`. -/
  numberOfChildren : Int
  deriving DecidableEq, Repr

mutual
inductive PObj where
  | node : ObjData → PForest → PObj
  deriving DecidableEq, Repr
inductive PForest where
  | nil : PForest
  | cons : PObj → PForest → PForest
  deriving DecidableEq, Repr
end

/-- Observable steps of `WdfObjectDelete`, in program order. -/
inductive Event where
  /-- `EvtCleanupCallback(platformObject)` ran. -/
  | cleanup (id : Nat)
  /-- `EvtDestroyCallback(platformObject)` ran. -/
  | destroy (id : Nat)
  /-- `RemoveEntryList(&platformObject->ChildListEntry)` ran. -/
  | unlink (id : Nat)
  /-- `ObjectDelete(platformObject)` (payload destructor) ran. -/
  | payloadDestroy (id : Nat)
  /-- `DMF_Platform_Free(platformObject->Data)` ran. -/
  | freeData (id : Nat)
  /-- `DMF_Platform_CriticalSectionDelete(&...->ChildListLock)` ran. -/
  | freeLock (id : Nat)
  /-- `DMF_Platform_Free(platformObject)` ran. -/
  | freeControl (id : Nat)
  /-- a `ContextData` block of the object's `ContextList` was freed. -/
  | freeContext (blk : Nat)
  deriving DecidableEq, Repr

mutual
/-- `WdfObjectDelete`: decrements `ReferenceCount`, always runs the
cleanup callback when registered, and when the decremented count is
exactly zero walks `ChildList` recursively deleting every child, then
runs the destroy callback, unlinks from the parent, runs the payload
destructor, frees `Data`, deletes the lock and frees the control block.
Nothing in the function frees the `ContextList` blocks.  Returns the
trace of events together with the surviving object (`none` when the
object was destroyed). -/
def deleteObj : PObj → List Event × Option PObj
  | .node d f =>
    let n := d.referenceCount - 1
    let evCleanup := if d.cleanup then [Event.cleanup d.id] else []
    if n = 0 then
      (evCleanup ++ deleteForest f
        ++ (if d.destroy then [Event.destroy d.id] else [])
        ++ (if d.hasParent then [Event.unlink d.id] else [])
        ++ (if d.objectDelete then [Event.payloadDestroy d.id] else [])
        ++ [Event.freeData d.id, Event.freeLock d.id, Event.freeControl d.id],
       none)
    else
      (evCleanup, some (.node { d with referenceCount := n } f))

/-- The child walk of `WdfObjectDelete`: each link of `ChildList` is
visited in order and `WdfObjectDelete` is called on it. -/
def deleteForest : PForest → List Event
  | .nil => []
  | .cons c rest => (deleteObj c).1 ++ deleteForest rest
end

mutual
/-- All control-block ids in a tree (the object and its descendants). -/
def idsObj : PObj → List Nat
  | .node d f => d.id :: idsForest f

/-- All control-block ids in a forest. -/
def idsForest : PForest → List Nat
  | .nil => []
  | .cons c rest => idsObj c ++ idsForest rest
end

mutual
/-- Ids of the nodes of a tree whose destroy callback is registered. -/
def destroyIdsObj : PObj → List Nat
  | .node d f =>
      (if d.destroy then [d.id] else []) ++ destroyIdsForest f

/-- Ids of the nodes of a forest whose destroy callback is registered. -/
def destroyIdsForest : PForest → List Nat
  | .nil => []
  | .cons c rest => destroyIdsObj c ++ destroyIdsForest rest
end

mutual
/-- Every node of the tree has `ReferenceCount = 1` — the invariant of
every reachable state, since `DmfPlatformObjectCreate` initializes the
count to 1 and this layer exposes no increment operation. -/
def allOnesObj : PObj → Bool
  | .node d f => d.referenceCount == 1 && allOnesForest f

/-- Every node of the forest has `ReferenceCount = 1`. -/
def allOnesForest : PForest → Bool
  | .nil => true
  | .cons c rest => allOnesObj c && allOnesForest rest
end

/-- `DmfPlatformObjectCreate`, control-block initialization: the new
object starts with `ReferenceCount = 1`, empty `ContextList`, empty
`ChildList` and `NumberOfChildren` not yet incremented by any child. -/
def dmfPlatformObjectCreate (id : Nat)
    (cleanup destroy hasParent objectDelete : Bool) : PObj :=
  .node
    { id := id
      referenceCount := 1
      cleanup := cleanup
      destroy := destroy
      hasParent := hasParent
      objectDelete := objectDelete
      contexts := []
      numberOfChildren := 0 }
    .nil

/-- `InsertTailList(&Parent->ChildList, ...)`. -/
def forestAppend : PForest → PObj → PForest
  | .nil, c => .cons c .nil
  | .cons x rest, c => .cons x (forestAppend rest c)

/-- The parent-linking step of `DmfPlatformObjectCreate` when
`Parent != NULL`: under the parent's lock the child is inserted at the
tail of `Parent->ChildList` and `Parent->NumberOfChildren` is
incremented. -/
def attachChild (p : PObj) (c : PObj) : PObj :=
  match p with
  | .node d f =>
      .node { d with numberOfChildren := d.numberOfChildren + 1 }
        (forestAppend f c)

/-- `NumberOfChildren` of an object. -/
def childCount : PObj → Int
  | .node d _ => d.numberOfChildren

/-- The `ChildList` of an object. -/
def childrenOf : PObj → PForest
  | .node _ f => f

/-- Number of links in a forest. -/
def forestLength : PForest → Nat
  | .nil => 0
  | .cons _ rest => forestLength rest + 1

/-- The `j`-th link of a forest. -/
def forestGet : PForest → Nat → Option PObj
  | .nil, _ => none
  | .cons c _, 0 => some c
  | .cons _ rest, j + 1 => forestGet rest j

/-- `RemoveEntryList` on the `j`-th link of a forest. -/
def forestRemoveAt : PForest → Nat → PForest
  | .nil, _ => .nil
  | .cons _ rest, 0 => rest
  | .cons c rest, j + 1 => .cons c (forestRemoveAt rest j)

/-- Replace the `j`-th link of a forest. -/
def forestSet : PForest → Nat → PObj → PForest
  | .nil, _, _ => .nil
  | .cons _ rest, 0, c => .cons c rest
  | .cons x rest, j + 1, c => .cons x (forestSet rest j c)

/-- A caller invoking `WdfObjectDelete` directly on the `j`-th child of
`p` (a child created with `ParentObject = p`): the call runs entirely
inside the child — when the child's decremented count reaches zero its
own `RemoveEntryList(&child->ChildListEntry)` unlinks it from `p`'s
`ChildList`; otherwise the child stays linked with the decremented
count.  No statement of `WdfObjectDelete` touches
`p->NumberOfChildren`.  Returns the parent as the caller leaves it. -/
def deleteChildDirect (p : PObj) (j : Nat) : PObj :=
  match p with
  | .node d f =>
    match forestGet f j with
    | none => .node d f
    | some c =>
      match (deleteObj c).2 with
      | none => .node d (forestRemoveAt f j)
      | some c' => .node d (forestSet f j c')

/-! ## Allocation-dependent control flow of the creation functions

`DMF_Platform_Allocate` may fail.  The allocator is modelled as a state
carrying the next fresh block address, the set of currently allocated
addresses and an oracle: a list of booleans consumed one per
`DMF_Platform_Allocate` call (`true` = the call returns memory,
exhausted oracle = success).  `DMF_Platform_Free` removes an address.
The creation functions below reproduce the C control flow — which calls
allocate, what is freed on each failure path, which `NTSTATUS` is
returned, and whether the output handle parameter was written. -/

/-- The `NTSTATUS` values the modelled paths produce. -/
inductive NtStatus where
  /-- `STATUS_SUCCESS`. -/
  | success
  /-- `STATUS_UNSUCCESSFUL` (the value `ntStatus` is initialized to). -/
  | unsuccessful
  /-- `STATUS_INSUFFICIENT_RESOURCES` (the "ResourceExhausted" kind). -/
  | insufficientResources
  deriving DecidableEq, Repr

structure AllocState where
  nextId : Nat
  allocated : List Nat
  oracle : List Bool
  deriving DecidableEq, Repr

/-- Pop the next oracle answer (success when exhausted). -/
def takeOracle (s : AllocState) : Bool × AllocState :=
  match s.oracle with
  | [] => (true, s)
  | b :: rest => (b, { s with oracle := rest })

/-- `DMF_Platform_Allocate`: returns a fresh address, or `NULL` when the
oracle says the allocation fails. -/
def platformAllocate (s : AllocState) : Option Nat × AllocState :=
  let (ok, s1) := takeOracle s
  if ok then
    (some s1.nextId,
     { s1 with nextId := s1.nextId + 1, allocated := s1.nextId :: s1.allocated })
  else
    (none, s1)

/-- `DMF_Platform_Free`. -/
def platformFree (s : AllocState) (i : Nat) : AllocState :=
  { s with allocated := s.allocated.erase i }

/-- The attribute fields that drive the modelled control flow:
`ParentObject` and, when `ContextTypeInfo != NULL`, its `ContextSize`. -/
structure WdfObjectAttributes where
  parentObject : Option Nat := none
  contextTypeSize : Option Nat := none
  deriving DecidableEq, Repr

/-- `WdfObjectAllocateContext`: allocates the `DMF_PLATFORM_CONTEXT`
and then its `ContextData`; either failure returns
`STATUS_INSUFFICIENT_RESOURCES`, the second frees the first block. -/
def wdfObjectAllocateContext (s : AllocState) : NtStatus × AllocState :=
  let (ctx, s1) := platformAllocate s
  match ctx with
  | none => (.insufficientResources, s1)
  | some ctxId =>
    let (ctxData, s2) := platformAllocate s1
    match ctxData with
    | none => (.insufficientResources, platformFree s2 ctxId)
    | some _ => (.success, s2)

/-- `CustomContextAllocate`: calls `WdfObjectAllocateContext` exactly
when the attributes are non-`NULL` with a non-`NULL` `ContextTypeInfo`
of positive `ContextSize`; otherwise returns `STATUS_SUCCESS`. -/
def customContextAllocate (attrs : Option WdfObjectAttributes)
    (s : AllocState) : NtStatus × AllocState :=
  match attrs with
  | none => (.success, s)
  | some a =>
    match a.contextTypeSize with
    | none => (.success, s)
    | some sz =>
      if sz > 0 then wdfObjectAllocateContext s else (.success, s)

/-- `WdfMemoryCreate`: `ntStatus = STATUS_UNSUCCESSFUL`; allocate the
control block (`DmfPlatformObjectCreate`), then `Data`, then the
`DataMemory` buffer, rolling back on failure but keeping the initial
`STATUS_UNSUCCESSFUL`; then write `*Memory`; then
`CustomContextAllocate`, whose status is returned with no rollback.
Result: `(status, value written to *Memory, allocator state)`. -/
def wdfMemoryCreate (attrs : Option WdfObjectAttributes)
    (s : AllocState) : NtStatus × Option Nat × AllocState :=
  let (obj, s1) := platformAllocate s
  match obj with
  | none => (.unsuccessful, none, s1)
  | some objId =>
    let (data, s2) := platformAllocate s1
    match data with
    | none => (.unsuccessful, none, platformFree s2 objId)
    | some dataId =>
      let (buf, s3) := platformAllocate s2
      match buf with
      | none =>
          (.unsuccessful, none, platformFree (platformFree s3 dataId) objId)
      | some _ =>
        let (st, s4) := customContextAllocate attrs s3
        (st, some objId, s4)

/-- `WdfSpinLockCreate`: allocate the control block, then `Data`
(`DMF_PLATFORM_SPINLOCK`); `WdfSpinLockCreate_Win32` is an injected
environment primitive assumed to succeed; then write `*SpinLock` and
run `CustomContextAllocate`. -/
def wdfSpinLockCreate (attrs : Option WdfObjectAttributes)
    (s : AllocState) : NtStatus × Option Nat × AllocState :=
  let (obj, s1) := platformAllocate s
  match obj with
  | none => (.unsuccessful, none, s1)
  | some objId =>
    let (data, s2) := platformAllocate s1
    match data with
    | none => (.unsuccessful, none, platformFree s2 objId)
    | some _ =>
      let (st, s3) := customContextAllocate attrs s2
      (st, some objId, s3)

/-- `WdfCollectionCreate`: allocate the control block, then `Data`
(`DMF_PLATFORM_COLLECTION`); then create the internal `ListLock` spin
lock with freshly initialized attributes
(`WDF_OBJECT_ATTRIBUTES_INIT`, no context type) — when that fails, free
`Data` and the control block and return the spin lock's own status;
then write `*Collection` and run `CustomContextAllocate`. -/
def wdfCollectionCreate (attrs : Option WdfObjectAttributes)
    (s : AllocState) : NtStatus × Option Nat × AllocState :=
  let (obj, s1) := platformAllocate s
  match obj with
  | none => (.unsuccessful, none, s1)
  | some objId =>
    let (data, s2) := platformAllocate s1
    match data with
    | none => (.unsuccessful, none, platformFree s2 objId)
    | some dataId =>
      let (lockStatus, _, s3) :=
        wdfSpinLockCreate (some { parentObject := none, contextTypeSize := none }) s2
      if lockStatus = .success then
        let (st, s4) := customContextAllocate attrs s3
        (st, some objId, s4)
      else
        (lockStatus, none, platformFree (platformFree s3 dataId) objId)

/-- The allocation step of `WdfCollectionAdd`: a failed
`COLLECTION_ENTRY` allocation returns `STATUS_INSUFFICIENT_RESOURCES`,
otherwise the entry is linked and `STATUS_SUCCESS` returned. -/
def wdfCollectionAddStatus (s : AllocState) : NtStatus × AllocState :=
  let (entry, s1) := platformAllocate s
  match entry with
  | none => (.insufficientResources, s1)
  | some _ => (.success, s1)

/-! ## Helper lemmas about deletion traces -/

/-- The reference count stored in an object's control block. -/
def refCountOf : PObj → Int
  | .node d _ => d.referenceCount

/-- The `ContextData` block addresses of an object. -/
def contextsOf : PObj → List Nat
  | .node d _ => d.contexts

/-- Unfolding of `deleteObj` when the decrement reaches zero. -/
theorem deleteObj_destroyed (d : ObjData) (f : PForest)
    (h : d.referenceCount = 1) :
    deleteObj (PObj.node d f) =
      ((if d.cleanup then [Event.cleanup d.id] else [])
        ++ deleteForest f
        ++ (if d.destroy then [Event.destroy d.id] else [])
        ++ (if d.hasParent then [Event.unlink d.id] else [])
        ++ (if d.objectDelete then [Event.payloadDestroy d.id] else [])
        ++ [Event.freeData d.id, Event.freeLock d.id, Event.freeControl d.id],
       none) := by
  simp [deleteObj, h]

/-- Unfolding of `deleteObj` when the decremented count is nonzero. -/
theorem deleteObj_survives (d : ObjData) (f : PForest)
    (h : d.referenceCount ≠ 1) :
    deleteObj (PObj.node d f) =
      ((if d.cleanup then [Event.cleanup d.id] else []),
       some (PObj.node { d with referenceCount := d.referenceCount - 1 } f)) := by
  have h0 : ¬ (d.referenceCount - 1 = 0) := by omega
  simp [deleteObj, h0]

mutual
/-- `WdfObjectDelete` contains no statement freeing `ContextList`
blocks: no deletion trace of an object holds a `freeContext` event. -/
theorem noFreeContextObj :
    ∀ (o : PObj) (b : Nat), Event.freeContext b ∉ (deleteObj o).1
  | .node d f, b => by
    have hf := noFreeContextForest f b
    by_cases h : d.referenceCount - 1 = 0
    · simp only [deleteObj, h, if_pos, if_true]
      simp only [List.mem_append, List.mem_singleton, not_or]
      refine ⟨⟨⟨⟨⟨?_, hf⟩, ?_⟩, ?_⟩, ?_⟩, ?_⟩ <;>
        first
          | (split <;> simp)
          | simp

    · simp only [deleteObj, h, if_neg, if_false]
      split <;> simp

/-- No trace of a child walk holds a `freeContext` event. -/
theorem noFreeContextForest :
    ∀ (f : PForest) (b : Nat), Event.freeContext b ∉ deleteForest f
  | .nil, b => by simp [deleteForest]
  | .cons c rest, b => by
    have h1 := noFreeContextObj c b
    have h2 := noFreeContextForest rest b
    simp only [deleteForest, List.mem_append, not_or]
    exact ⟨h1, h2⟩
end

mutual
/-- A cleanup event in an object's deletion trace names an id of the
object's own subtree. -/
theorem cleanupMemObj :
    ∀ (o : PObj) (i : Nat),
      Event.cleanup i ∈ (deleteObj o).1 → i ∈ idsObj o
  | .node d f, i => by
    have hf := cleanupMemForest f i
    by_cases h : d.referenceCount - 1 = 0
    · simp only [deleteObj, h, if_pos, if_true]
      simp only [idsObj, List.mem_append, List.mem_singleton, List.mem_cons]
      intro hmem
      rcases hmem with ((((hc | hrec) | hde) | hun) | hpd) | hfr
      · left
        revert hc
        split <;> simp_all
      · exact Or.inr (hf hrec)
      · revert hde
        split <;> simp_all
      · revert hun
        split <;> simp_all
      · revert hpd
        split <;> simp_all
      · simp_all
    · simp only [deleteObj, h, if_neg, if_false]
      simp only [idsObj, List.mem_cons]
      intro hmem
      left
      revert hmem
      split <;> simp_all

/-- A cleanup event in a child walk's trace names an id of the forest. -/
theorem cleanupMemForest :
    ∀ (f : PForest) (i : Nat),
      Event.cleanup i ∈ deleteForest f → i ∈ idsForest f
  | .nil, i => by simp [deleteForest, idsForest]
  | .cons c rest, i => by
    have h1 := cleanupMemObj c i
    have h2 := cleanupMemForest rest i
    simp only [deleteForest, idsForest, List.mem_append]
    rintro (h | h)
    · exact Or.inl (h1 h)
    · exact Or.inr (h2 h)
end

mutual
/-- When every reference count of a tree is 1, `WdfObjectDelete`
destroys the whole tree: every node's control block is freed and every
registered destroy callback runs, all within the one call's trace. -/
theorem traceCompleteObj :
    ∀ (o : PObj), allOnesObj o = true →
      (deleteObj o).2 = none
      ∧ (∀ i ∈ idsObj o, Event.freeControl i ∈ (deleteObj o).1)
      ∧ (∀ i ∈ destroyIdsObj o, Event.destroy i ∈ (deleteObj o).1)
  | .node d f => by
    intro h
    simp only [allOnesObj, Bool.and_eq_true, beq_iff_eq] at h
    obtain ⟨h1, hforest⟩ := h
    have hf := traceCompleteForest f hforest
    rw [deleteObj_destroyed d f h1]
    refine ⟨rfl, ?_, ?_⟩
    · intro i hi
      simp only [idsObj, List.mem_cons] at hi
      simp only [List.mem_append, List.mem_singleton]
      rcases hi with hi | hi
      · subst hi
        simp
      · exact Or.inl (Or.inl (Or.inl (Or.inl (Or.inr (hf.1 i hi)))))
    · intro i hi
      simp only [destroyIdsObj, List.mem_append] at hi
      simp only [List.mem_append, List.mem_singleton]
      rcases hi with hi | hi
      · left; left; left
        right
        revert hi
        split <;> simp_all
      · exact Or.inl (Or.inl (Or.inl (Or.inl (Or.inr (hf.2 i hi)))))

/-- When every reference count of a forest is 1, the child walk frees
every node and runs every registered destroy callback. -/
theorem traceCompleteForest :
    ∀ (f : PForest), allOnesForest f = true →
      (∀ i ∈ idsForest f, Event.freeControl i ∈ deleteForest f)
      ∧ (∀ i ∈ destroyIdsForest f, Event.destroy i ∈ deleteForest f)
  | .nil => by intro _; simp [idsForest, destroyIdsForest]
  | .cons c rest => by
    intro h
    simp only [allOnesForest, Bool.and_eq_true] at h
    have hc := traceCompleteObj c h.1
    have hr := traceCompleteForest rest h.2
    constructor
    · intro i hi
      simp only [idsForest, List.mem_append] at hi
      simp only [deleteForest, List.mem_append]
      rcases hi with hi | hi
      · exact Or.inl (hc.2.1 i hi)
      · exact Or.inr (hr.1 i hi)
    · intro i hi
      simp only [destroyIdsForest, List.mem_append] at hi
      simp only [deleteForest, List.mem_append]
      rcases hi with hi | hi
      · exact Or.inl (hc.2.2 i hi)
      · exact Or.inr (hr.2 i hi)
end

/-! ## Sample objects used to instantiate the lifecycle theorems -/

/-- A child object (`ReferenceCount = 1`, destroy callback registered,
linked under a parent). -/
def sampleChild : PObj :=
  .node
    { id := 2, referenceCount := 1, cleanup := true, destroy := true
      hasParent := true, objectDelete := false, contexts := []
      numberOfChildren := 0 }
    .nil

/-- A one-child `ChildList`. -/
def sampleForest : PForest := .cons sampleChild .nil

/-- A root object owning `sampleChild`. -/
def sampleData : ObjData :=
  { id := 1, referenceCount := 1, cleanup := false, destroy := true
    hasParent := false, objectDelete := true, contexts := []
    numberOfChildren := 1 }

/-! ## Claim theorems -/

/-- C1: when a `WdfObjectDelete` brings the reference count to zero —
with every reference count of the reachable tree equal to 1, the
invariant of every reachable state since creation initializes counts to
1 and no increment operation exists — every live child in the
`ChildList` is recursively and fully destroyed inside the child walk,
whose entire trace precedes the object's own destroy callback in the
deletion trace; and the teardown of the whole reachable subtree,
including every descendant's destroy callback and control-block free,
lies within this one call's trace, hence completes before
`WdfObjectDelete` returns. -/
theorem wdfObjectDelete_cascade_before_destroy (d : ObjData) (f : PForest)
    (h : allOnesObj (PObj.node d f) = true) :
    (deleteObj (PObj.node d f)).2 = none
    ∧ (deleteObj (PObj.node d f)).1
        = (if d.cleanup then [Event.cleanup d.id] else [])
          ++ deleteForest f
          ++ (if d.destroy then [Event.destroy d.id] else [])
          ++ (if d.hasParent then [Event.unlink d.id] else [])
          ++ (if d.objectDelete then [Event.payloadDestroy d.id] else [])
          ++ [Event.freeData d.id, Event.freeLock d.id, Event.freeControl d.id]
    ∧ (∀ i ∈ idsForest f, Event.freeControl i ∈ deleteForest f)
    ∧ (∀ i ∈ destroyIdsForest f, Event.destroy i ∈ deleteForest f)
    ∧ (∀ i ∈ idsObj (PObj.node d f),
        Event.freeControl i ∈ (deleteObj (PObj.node d f)).1)
    ∧ (∀ i ∈ destroyIdsObj (PObj.node d f),
        Event.destroy i ∈ (deleteObj (PObj.node d f)).1) := by
  have hall := h
  simp only [allOnesObj, Bool.and_eq_true, beq_iff_eq] at h
  obtain ⟨h1, hforest⟩ := h
  have hfc := traceCompleteForest f hforest
  have hoc := traceCompleteObj (PObj.node d f) hall
  refine ⟨hoc.1, ?_, hfc.1, hfc.2, hoc.2.1, hoc.2.2⟩
  rw [deleteObj_destroyed d f h1]

/-- C1 witness: on a concrete two-node tree, delete destroys everything
and the child's destroy and free events lie in the child-walk segment
that precedes the root's destroy callback. -/
theorem wdfObjectDelete_cascade_before_destroy_check :
    (deleteObj (PObj.node sampleData sampleForest)).2 = none
    ∧ Event.destroy 2 ∈ deleteForest sampleForest
    ∧ Event.freeControl 2 ∈ deleteForest sampleForest
    ∧ Event.destroy 1 ∈ (deleteObj (PObj.node sampleData sampleForest)).1 :=
  ⟨(wdfObjectDelete_cascade_before_destroy sampleData sampleForest (by decide)).1,
   (wdfObjectDelete_cascade_before_destroy sampleData sampleForest
      (by decide)).2.2.2.1 2 (by decide),
   (wdfObjectDelete_cascade_before_destroy sampleData sampleForest
      (by decide)).2.2.1 2 (by decide),
   (wdfObjectDelete_cascade_before_destroy sampleData sampleForest
      (by decide)).2.2.2.2.2 1 (by decide)⟩

/-- C2: `DmfPlatformObjectCreate` initializes the reference count to 1,
and `WdfObjectDelete` frees the object — control block, payload `Data`
block and `ChildListLock` — exactly when its decrement makes the count
reach zero; when the decremented count is nonzero nothing is freed. -/
theorem object_refcount_one_and_freed_iff_zero
    (id : Nat) (cl de hp od : Bool) (d : ObjData) (f : PForest) :
    refCountOf (dmfPlatformObjectCreate id cl de hp od) = 1
    ∧ ((deleteObj (PObj.node d f)).2 = none ↔ d.referenceCount - 1 = 0)
    ∧ (d.referenceCount - 1 = 0 →
        Event.freeControl d.id ∈ (deleteObj (PObj.node d f)).1
        ∧ Event.freeData d.id ∈ (deleteObj (PObj.node d f)).1
        ∧ Event.freeLock d.id ∈ (deleteObj (PObj.node d f)).1)
    ∧ (d.referenceCount - 1 ≠ 0 →
        Event.freeControl d.id ∉ (deleteObj (PObj.node d f)).1
        ∧ Event.freeData d.id ∉ (deleteObj (PObj.node d f)).1
        ∧ Event.freeLock d.id ∉ (deleteObj (PObj.node d f)).1) := by
  refine ⟨rfl, ?_, ?_, ?_⟩
  · by_cases h : d.referenceCount = 1
    · rw [deleteObj_destroyed d f h]
      constructor
      · intro _; omega
      · intro _; rfl
    · rw [deleteObj_survives d f h]
      constructor
      · intro hx; exact absurd hx (by simp)
      · intro hx; omega
  · intro h0
    have h : d.referenceCount = 1 := by omega
    rw [deleteObj_destroyed d f h]
    refine ⟨?_, ?_, ?_⟩ <;> simp
  · intro h0
    have h : d.referenceCount ≠ 1 := by omega
    rw [deleteObj_survives d f h]
    refine ⟨?_, ?_, ?_⟩ <;> (split <;> simp)

/-- C2 witness: instantiation at a concrete creation and at concrete
reference counts 1 and 2. -/
theorem object_refcount_one_and_freed_iff_zero_check :
    refCountOf (dmfPlatformObjectCreate 5 true false false true) = 1
    ∧ Event.freeControl 1 ∈
        (deleteObj (PObj.node sampleData PForest.nil)).1
    ∧ Event.freeControl 3 ∉
        (deleteObj (PObj.node { sampleData with id := 3, referenceCount := 2 }
          PForest.nil)).1 :=
  ⟨(object_refcount_one_and_freed_iff_zero 5 true false false true
      sampleData PForest.nil).1,
   ((object_refcount_one_and_freed_iff_zero 5 true false false true
      sampleData PForest.nil).2.2.1 (by decide)).1,
   ((object_refcount_one_and_freed_iff_zero 5 true false false true
      { sampleData with id := 3, referenceCount := 2 } PForest.nil).2.2.2
      (by decide)).1⟩

/-- C3: each `WdfObjectDelete` call runs the registered cleanup callback
exactly once — it is the first event of the call's trace and appears
exactly once in it — no matter what the decremented count is; and when
the decremented count is nonzero the call performs no destruction at
all: the trace holds only the cleanup event and the object survives with
the decremented count and its children untouched. -/
theorem wdfObjectDelete_cleanup_once (d : ObjData) (f : PForest)
    (hc : d.cleanup = true) (hid : d.id ∉ idsForest f) :
    ((deleteObj (PObj.node d f)).1.count (Event.cleanup d.id) = 1)
    ∧ (∃ rest, (deleteObj (PObj.node d f)).1 = Event.cleanup d.id :: rest)
    ∧ (d.referenceCount - 1 ≠ 0 →
        deleteObj (PObj.node d f)
          = ([Event.cleanup d.id],
             some (PObj.node { d with referenceCount := d.referenceCount - 1 } f))) := by
  have hnot : Event.cleanup d.id ∉ deleteForest f :=
    fun hm => hid (cleanupMemForest f d.id hm)
  by_cases h : d.referenceCount = 1
  · rw [deleteObj_destroyed d f h]
    simp only [hc, if_true]
    refine ⟨?_, ⟨_, rfl⟩, ?_⟩
    · simp only [List.count_append, List.count_cons, List.count_nil,
        List.count_eq_zero.mpr hnot]
      have e1 : (if d.destroy then [Event.destroy d.id] else []).count
          (Event.cleanup d.id) = 0 := by
        split <;> simp [List.count_cons]
      have e2 : (if d.hasParent then [Event.unlink d.id] else []).count
          (Event.cleanup d.id) = 0 := by
        split <;> simp [List.count_cons]
      have e3 : (if d.objectDelete then [Event.payloadDestroy d.id] else []).count
          (Event.cleanup d.id) = 0 := by
        split <;> simp [List.count_cons]
      simp [e1, e2, e3, List.count_singleton]
    · intro hn
      exact (hn (by omega)).elim
  · rw [deleteObj_survives d f h]
    refine ⟨by simp [hc], ⟨[], by simp [hc]⟩, fun _ => by simp [hc]⟩

/-- C3 witness: a concrete object with count 3 and a child: the cleanup
callback runs exactly once, first, and nothing is destroyed. -/
theorem wdfObjectDelete_cleanup_once_check :
    ((deleteObj (PObj.node { sampleData with cleanup := true, referenceCount := 3 }
        sampleForest)).1.count (Event.cleanup 1) = 1)
    ∧ deleteObj (PObj.node { sampleData with cleanup := true, referenceCount := 3 }
        sampleForest)
        = ([Event.cleanup 1],
           some (PObj.node { sampleData with cleanup := true, referenceCount := 2 }
             sampleForest)) :=
  ⟨(wdfObjectDelete_cleanup_once
      { sampleData with cleanup := true, referenceCount := 3 } sampleForest
      (by decide) (by decide)).1,
   (wdfObjectDelete_cleanup_once
      { sampleData with cleanup := true, referenceCount := 3 } sampleForest
      (by decide) (by decide)).2.2 (by decide)⟩

/-- A parent with no children yet (`NumberOfChildren = 0`). -/
def plainParent : PObj := dmfPlatformObjectCreate 1 false false false false

/-- A child to be linked under `plainParent`
(`ObjectAttributes.ParentObject != NULL`). -/
def plainChild : PObj := dmfPlatformObjectCreate 2 false false true false

/-- C6 counterexample: linking a child under `P` increments
`P->NumberOfChildren` to 1, but a direct `WdfObjectDelete` of that child
unlinks it from `P`'s `ChildList` (the `ChildList` becomes empty) while
`P->NumberOfChildren` stays 1 — it is not decremented when the child
finishes destruction, contradicting the claim. -/
theorem directChildDelete_childCount_cx :
    childCount (attachChild plainParent plainChild)
      = childCount plainParent + 1
    ∧ childrenOf (deleteChildDirect (attachChild plainParent plainChild) 0)
      = PForest.nil
    ∧ childCount (deleteChildDirect (attachChild plainParent plainChild) 0)
      ≠ childCount plainParent := by
  decide

/-- C6 amended: creating a child with parent `P` increments
`P->NumberOfChildren` by exactly 1; but when the child is deleted
directly by the caller, `WdfObjectDelete` unlinks the destroyed child
from `P`'s `ChildList` without decrementing `P->NumberOfChildren` — the
counter is only decremented inside `P`'s own cascading deletion walk. -/
theorem attach_increments_direct_delete_keeps_childCount
    (p c : PObj) (j : Nat) :
    childCount (attachChild p c) = childCount p + 1
    ∧ childCount (deleteChildDirect p j) = childCount p := by
  cases p with
  | node d f =>
    refine ⟨by simp [attachChild, childCount], ?_⟩
    simp only [deleteChildDirect]
    split
    · simp [childCount]
    · split <;> simp [childCount]

/-- C7 counterexample: an object holding an attached extension whose
`ContextData` block is at address 7 is fully destroyed by
`WdfObjectDelete`, yet no free of that extension block occurs in the
deletion trace — the extension list is never reclaimed. -/
theorem extensionBlocks_not_reclaimed_cx :
    7 ∈ contextsOf (PObj.node { sampleData with contexts := [7] } PForest.nil)
    ∧ (deleteObj (PObj.node { sampleData with contexts := [7] } PForest.nil)).2
      = none
    ∧ Event.freeContext 7 ∉
        (deleteObj (PObj.node { sampleData with contexts := [7] } PForest.nil)).1 := by
  decide

/-- C7 amended: when the decrement reaches zero, destruction performs —
after the child walk — the destroy callback, the parent unlink, the
payload destructor when registered, the free of the `Data` block, the
delete of the object's lock and the free of the control block, in that
order; but it does not free the extension (`ContextList`) blocks: no
`freeContext` event ever appears in a deletion trace. -/
theorem wdfObjectDelete_teardown_steps (d : ObjData) (f : PForest)
    (h : d.referenceCount = 1) :
    (deleteObj (PObj.node d f)).1
      = (if d.cleanup then [Event.cleanup d.id] else [])
        ++ deleteForest f
        ++ (if d.destroy then [Event.destroy d.id] else [])
        ++ (if d.hasParent then [Event.unlink d.id] else [])
        ++ (if d.objectDelete then [Event.payloadDestroy d.id] else [])
        ++ [Event.freeData d.id, Event.freeLock d.id, Event.freeControl d.id]
    ∧ (∀ b : Nat, Event.freeContext b ∉ (deleteObj (PObj.node d f)).1) := by
  refine ⟨?_, fun b => noFreeContextObj (PObj.node d f) b⟩
  rw [deleteObj_destroyed d f h]

/-- C7 witness: concrete instantiation on a root owning one child. -/
theorem wdfObjectDelete_teardown_steps_check :
    (deleteObj (PObj.node sampleData sampleForest)).1
      = [] ++ deleteForest sampleForest ++ [Event.destroy 1] ++ []
        ++ [Event.payloadDestroy 1]
        ++ [Event.freeData 1, Event.freeLock 1, Event.freeControl 1]
    ∧ Event.freeContext 7 ∉ (deleteObj (PObj.node sampleData sampleForest)).1 :=
  ⟨(wdfObjectDelete_teardown_steps sampleData sampleForest rfl).1,
   (wdfObjectDelete_teardown_steps sampleData sampleForest rfl).2 7⟩

/-- Attributes carrying a context type descriptor of positive size. -/
def ctxAttrs : WdfObjectAttributes :=
  { parentObject := none, contextTypeSize := some 4 }

/-- An allocator whose fourth `DMF_Platform_Allocate` call fails: the
control block, `Data` and `DataMemory` allocations of `WdfMemoryCreate`
succeed, the `DMF_PLATFORM_CONTEXT` allocation fails. -/
def ctxFailState : AllocState :=
  { nextId := 0, allocated := [], oracle := [true, true, true, false] }

/-- C4 counterexample: `WdfMemoryCreate` with a positive-size context
descriptor, when the extension allocation fails after the object was
created, returns `STATUS_INSUFFICIENT_RESOURCES` but has already stored
the handle (block 0) in `*Memory` and leaves block 0 allocated — it
neither frees the Object nor withholds the partially-initialized
handle, contradicting the claim. -/
theorem wdfMemoryCreate_context_failure_no_rollback_cx :
    (wdfMemoryCreate (some ctxAttrs) ctxFailState).1
      = NtStatus.insufficientResources
    ∧ (wdfMemoryCreate (some ctxAttrs) ctxFailState).2.1 = some 0
    ∧ 0 ∈ (wdfMemoryCreate (some ctxAttrs) ctxFailState).2.2.allocated := by
  decide

/-- C4 amended: when the attributes carry a context type descriptor of
positive size and the extension allocation fails after the Object has
been successfully created, `WdfMemoryCreate` returns
`STATUS_INSUFFICIENT_RESOURCES` (ResourceExhausted), but it does not
roll back: the Object's control block stays allocated and the handle has
already been written to the caller's output parameter. -/
theorem wdfMemoryCreate_context_failure_behavior
    (s : AllocState) (sz : Nat) (rest : List Bool)
    (ho : s.oracle = true :: true :: true :: false :: rest)
    (hsz : 0 < sz) :
    (wdfMemoryCreate (some { parentObject := none, contextTypeSize := some sz }) s).1
      = NtStatus.insufficientResources
    ∧ (wdfMemoryCreate (some { parentObject := none, contextTypeSize := some sz }) s).2.1
      = some s.nextId
    ∧ s.nextId ∈
        (wdfMemoryCreate (some { parentObject := none, contextTypeSize := some sz }) s).2.2.allocated := by
  obtain ⟨n, al, o⟩ := s
  simp only at ho
  subst ho
  simp [wdfMemoryCreate, platformAllocate, takeOracle, customContextAllocate,
    wdfObjectAllocateContext, platformFree, hsz]

/-- C4 witness: concrete instantiation of the amended behavior. -/
theorem wdfMemoryCreate_context_failure_behavior_check :
    (wdfMemoryCreate (some { parentObject := none, contextTypeSize := some 4 })
        ctxFailState).1 = NtStatus.insufficientResources
    ∧ (wdfMemoryCreate (some { parentObject := none, contextTypeSize := some 4 })
        ctxFailState).2.1 = some 0
    ∧ 0 ∈ (wdfMemoryCreate (some { parentObject := none, contextTypeSize := some 4 })
        ctxFailState).2.2.allocated :=
  wdfMemoryCreate_context_failure_behavior ctxFailState 4 [] rfl (by decide)

/-- C5 counterexample: the very first allocation step of
`WdfMemoryCreate` (the object control block) failing makes the call
return `STATUS_UNSUCCESSFUL` — a different failure kind than
`STATUS_INSUFFICIENT_RESOURCES` (ResourceExhausted), contradicting the
claim that any allocation failure surfaces as ResourceExhausted. -/
theorem creation_alloc_failure_status_cx :
    (wdfMemoryCreate none { nextId := 0, allocated := [], oracle := [false] }).1
      = NtStatus.unsuccessful
    ∧ NtStatus.unsuccessful ≠ NtStatus.insufficientResources := by
  decide

/-- C5 amended: failures of the control-block or payload allocation
steps of the creation operations return the generic
`STATUS_UNSUCCESSFUL`, not ResourceExhausted; only the context-extension
allocation (`WdfObjectAllocateContext`) and the `WdfCollectionAdd`
entry allocation return `STATUS_INSUFFICIENT_RESOURCES`; and a failure
while creating the spin lock a Collection needs internally is
propagated as the Collection's own status — the spin lock's generic
`STATUS_UNSUCCESSFUL`. -/
theorem creation_alloc_failure_status (s : AllocState) :
    (∀ rest, s.oracle = false :: rest →
        (wdfMemoryCreate none s).1 = NtStatus.unsuccessful)
    ∧ (∀ rest, s.oracle = true :: false :: rest →
        (wdfMemoryCreate none s).1 = NtStatus.unsuccessful)
    ∧ (∀ rest, s.oracle = true :: true :: false :: rest →
        (wdfCollectionCreate none s).1 = NtStatus.unsuccessful)
    ∧ (∀ rest, s.oracle = true :: true :: true :: false :: rest →
        (wdfCollectionCreate none s).1 = NtStatus.unsuccessful)
    ∧ (∀ rest, s.oracle = false :: rest →
        (wdfObjectAllocateContext s).1 = NtStatus.insufficientResources)
    ∧ (∀ rest, s.oracle = false :: rest →
        (wdfCollectionAddStatus s).1 = NtStatus.insufficientResources) := by
  obtain ⟨n, al, o⟩ := s
  refine ⟨?_, ?_, ?_, ?_, ?_, ?_⟩ <;>
    (intro rest ho
     simp only at ho
     subst ho
     simp [wdfMemoryCreate, wdfCollectionCreate, wdfSpinLockCreate,
       wdfObjectAllocateContext, wdfCollectionAddStatus,
       customContextAllocate, platformAllocate, takeOracle, platformFree])

/-- C5 witness: concrete instantiations of each amended conjunct. -/
theorem creation_alloc_failure_status_check :
    (wdfMemoryCreate none { nextId := 0, allocated := [], oracle := [false] }).1
      = NtStatus.unsuccessful
    ∧ (wdfCollectionCreate none
        { nextId := 0, allocated := [], oracle := [true, true, false] }).1
      = NtStatus.unsuccessful
    ∧ (wdfObjectAllocateContext
        { nextId := 0, allocated := [], oracle := [false] }).1
      = NtStatus.insufficientResources
    ∧ (wdfCollectionAddStatus
        { nextId := 0, allocated := [], oracle := [false] }).1
      = NtStatus.insufficientResources :=
  ⟨(creation_alloc_failure_status
      { nextId := 0, allocated := [], oracle := [false] }).1 [] rfl,
   (creation_alloc_failure_status
      { nextId := 0, allocated := [], oracle := [true, true, false] }).2.2.1 [] rfl,
   (creation_alloc_failure_status
      { nextId := 0, allocated := [], oracle := [false] }).2.2.2.2.1 [] rfl,
   (creation_alloc_failure_status
      { nextId := 0, allocated := [], oracle := [false] }).2.2.2.2.2 [] rfl⟩

/-- C8: `WdfObjectGetTypedContextWorker` returns the `ContextData` of
the first-attached extension whose stored `ContextName` is
identity-equal to the queried descriptor's `ContextName` (the scan runs
from the head of `ContextList`, where `WdfObjectAllocateContext`
appends at the tail), and `NULL` when no attached extension matches; in
particular a never-attached descriptor yields `NULL`, and a lookup right
after a successful attach of the descriptor yields a non-null block. -/
theorem contextLookup_first_attached (cs : List DmfPlatformContext) (q : Nat) :
    wdfObjectGetTypedContextWorker cs q
      = (cs.find? (fun c => q == c.contextName)).map
          (fun c => c.contextData)
    ∧ ((∀ c ∈ cs, c.contextName ≠ q) →
        wdfObjectGetTypedContextWorker cs q = none)
    ∧ (∀ sz dat,
        (wdfObjectGetTypedContextWorker
          (attachContext cs ⟨q, sz, dat⟩) q).isSome = true) := by
  refine ⟨?_, ?_, ?_⟩
  · induction cs with
    | nil => rfl
    | cons c rest ih =>
      simp only [wdfObjectGetTypedContextWorker, List.find?_cons]
      by_cases h : q = c.contextName
      · simp [h]
      · have hb : (q == c.contextName) = false := beq_false_of_ne h
        simp [h, hb, ih]
  · intro hnone
    induction cs with
    | nil => rfl
    | cons c rest ih =>
      have hne : q ≠ c.contextName :=
        fun he => hnone c (List.mem_cons_self c rest) he.symm
      simp only [wdfObjectGetTypedContextWorker, if_neg hne]
      exact ih (fun c' hc' => hnone c' (List.mem_cons_of_mem c hc'))
  · intro sz dat
    induction cs with
    | nil => simp [attachContext, wdfObjectGetTypedContextWorker]
    | cons c rest ih =>
      simp only [attachContext, List.cons_append, wdfObjectGetTypedContextWorker]
      by_cases h : q = c.contextName
      · simp [h]
      · simpa [h, attachContext] using ih

/-- C8 witness: with one extension of `ContextName` 5 attached, a query
for the never-attached descriptor 6 returns `NULL`, and a query for 6
right after attaching it returns a non-null block. -/
theorem contextLookup_first_attached_check :
    wdfObjectGetTypedContextWorker [⟨5, 1, 100⟩] 6 = none
    ∧ (wdfObjectGetTypedContextWorker
        (attachContext [⟨5, 1, 100⟩] ⟨6, 2, 200⟩) 6).isSome = true :=
  ⟨(contextLookup_first_attached [⟨5, 1, 100⟩] 6).2.1 (by decide),
   (contextLookup_first_attached [⟨5, 1, 100⟩] 6).2.2 2 200⟩

/-- `WdfCollectionGetItem` at an index below the old count is unchanged
by an `WdfCollectionAdd` (append at the tail). -/
theorem getItem_append_lt :
    ∀ (l : List Nat) (x : Nat) (i : Nat), i < l.length →
      wdfCollectionGetItem (l ++ [x]) i = wdfCollectionGetItem l i
  | [], _, i => by intro h; exact absurd h (by simp)
  | y :: rest, x, 0 => by intro _; rfl
  | y :: rest, x, i + 1 => by
    intro h
    simp only [List.cons_append, wdfCollectionGetItem]
    exact getItem_append_lt rest x i (by simpa using h)

/-- `WdfCollectionGetItem` at the old count finds the item just added. -/
theorem getItem_append_len :
    ∀ (l : List Nat) (x : Nat),
      wdfCollectionGetItem (l ++ [x]) l.length = some x
  | [], x => rfl
  | y :: rest, x => by
    simp only [List.cons_append, List.length_cons, wdfCollectionGetItem]
    exact getItem_append_len rest x

/-- C9: `WdfCollectionAdd` appends at the tail, preserving insertion
order — the count grows by one, every previously stored item keeps its
index, and the new item appears at the old count — and on the concrete
interleaving of the claim: after Add(10), Add(20), Add(30) the count is
3 and index 1 holds 20; after then RemoveAt(0) the count is 2, the
first item is 20 and the last item is 30. -/
theorem collection_insertion_order (l : List Nat) (x : Nat) (i : Nat)
    (h : i < wdfCollectionGetCount l) :
    wdfCollectionGetCount (wdfCollectionAdd l x)
      = wdfCollectionGetCount l + 1
    ∧ wdfCollectionGetItem (wdfCollectionAdd l x) i = wdfCollectionGetItem l i
    ∧ wdfCollectionGetItem (wdfCollectionAdd l x) (wdfCollectionGetCount l)
      = some x
    ∧ (wdfCollectionGetCount
        (wdfCollectionAdd (wdfCollectionAdd (wdfCollectionAdd [] 10) 20) 30) = 3
      ∧ wdfCollectionGetItem
          (wdfCollectionAdd (wdfCollectionAdd (wdfCollectionAdd [] 10) 20) 30) 1
        = some 20
      ∧ wdfCollectionGetCount
          (wdfCollectionRemoveItem
            (wdfCollectionAdd (wdfCollectionAdd (wdfCollectionAdd [] 10) 20) 30) 0)
        = 2
      ∧ wdfCollectionGetFirstItem
          (wdfCollectionRemoveItem
            (wdfCollectionAdd (wdfCollectionAdd (wdfCollectionAdd [] 10) 20) 30) 0)
        = some 20
      ∧ wdfCollectionGetLastItem
          (wdfCollectionRemoveItem
            (wdfCollectionAdd (wdfCollectionAdd (wdfCollectionAdd [] 10) 20) 30) 0)
        = some 30) := by
  refine ⟨?_, ?_, ?_, by decide⟩
  · simp [wdfCollectionGetCount, wdfCollectionAdd]
  · exact getItem_append_lt l x i h
  · exact getItem_append_len l x

/-- C9 witness: concrete instantiation on the list [1, 2]. -/
theorem collection_insertion_order_check :
    wdfCollectionGetCount (wdfCollectionAdd [1, 2] 3) = 3
    ∧ wdfCollectionGetItem (wdfCollectionAdd [1, 2] 3) 0
      = wdfCollectionGetItem [1, 2] 0
    ∧ wdfCollectionGetItem (wdfCollectionAdd [1, 2] 3) 2 = some 3 :=
  ⟨(collection_insertion_order [1, 2] 3 0 (by decide)).1,
   (collection_insertion_order [1, 2] 3 0 (by decide)).2.1,
   (collection_insertion_order [1, 2] 3 0 (by decide)).2.2.1⟩

/-- C10: evaluation of the preallocated-memory path at a concrete
input.  `WdfMemoryCreatePreallocated` writes the caller's buffer
(4096) and size (16) through the cast of the object pointer itself,
leaving the separately allocated `Data` block untouched;
`WdfMemoryGetBuffer`, which reads through `platformObject->Data`,
therefore returns the uninitialized block contents — not the supplied
buffer and size — and `DmfPlatformWdfMemoryDelete` branches on an
uninitialized `NeedToDeallocate`.  The sibling `WdfMemoryCreate` path,
which casts `platformObject->Data`, round-trips correctly, showing the
cast in `WdfMemoryCreatePreallocated` is a slip. -/
theorem preallocated_memory_getBuffer_bug :
    wdfMemoryGetBuffer (wdfMemoryCreatePreallocated 4096 16) = (none, none)
    ∧ wdfMemoryGetBuffer (wdfMemoryCreatePreallocated 4096 16)
      ≠ (some 4096, some 16)
    ∧ (wdfMemoryCreatePreallocated 4096 16).headerOverlay.dataMemory
      = some 4096
    ∧ (wdfMemoryCreatePreallocated 4096 16).headerOverlay.size = some 16
    ∧ dmfPlatformWdfMemoryDelete (wdfMemoryCreatePreallocated 4096 16) = none
    ∧ wdfMemoryGetBuffer (wdfMemoryCreateFields 7 16) = (some 7, some 16) := by
  decide

end DmfPlatform
